import Mathlib

/-!
Verification of the service layer and record store of an Airbnb-style
rental-marketplace backend.  The Lean definitions below are shallow
embeddings of the Python sources under apps/backend/src: pure record
operations over in-memory lists stand in for the JSON-file collections,
machine floats are modelled by rationals, ISO date strings by integer day
numbers, and ISO timestamp strings (whose lexicographic order is
chronological) by natural-number timestamps.  Python round(x, 2) is
modelled by decimal round-half-even at two places.
-/

namespace Airbnb

/-- Round-half-even to the nearest integer, the idealised (decimal) form of
the rounding used by Python round. -/
def roundHalfEven (q : ℚ) : ℤ :=
  let f := ⌊q⌋
  if q - f < 1/2 then f
  else if 1/2 < q - f then f + 1
  else if f % 2 = 0 then f else f + 1

/-- Python round(x, 2): round to two decimal places, ties to even. -/
def round2 (q : ℚ) : ℚ := (roundHalfEven (q * 100) : ℚ) / 100

/-- Arithmetic mean of a list of rationals (sum divided by length). -/
def mean (l : List ℚ) : ℚ := l.sum / l.length

namespace DataManager

/-- A stored record of one collection, as created by DataManager.create:
an integer id plus created_at and updated_at timestamps.  All other keys
of the underlying dict are abstracted into an opaque payload. -/
structure Rec where
  id : ℤ
  created_at : ℕ
  updated_at : ℕ
  payload : ℕ
deriving DecidableEq

/-- The dict passed to DataManager.create.  The optional id, created_at
and updated_at fields model the caller including those keys in the dict;
payload stands for all remaining keys. -/
structure Fields where
  id : Option ℤ := none
  created_at : Option ℕ := none
  updated_at : Option ℕ := none
  payload : ℕ := 0
deriving DecidableEq

/-- The partial dict passed to DataManager.update; every key is optional. -/
structure Updates where
  id : Option ℤ := none
  created_at : Option ℕ := none
  updated_at : Option ℕ := none
  payload : Option ℕ := none
deriving DecidableEq

/-- Embeds the id-generation step of DataManager.create:
max(int(item.get(id, 0)) for item in data) + 1 when data is non-empty,
else 1.  Every stored record carries an id, so the get-default is the
id itself. -/
def new_id_of (data : List Rec) : ℤ :=
  match data.map Rec.id with
  | [] => 1
  | x :: xs => xs.foldl max x + 1

/-- Embeds DataManager.create.  The created dict is
id, then the caller fields, then created_at and updated_at:
a caller-supplied id key therefore overrides the generated id, while
caller-supplied created_at and updated_at keys are overridden by the
timestamps.  Returns the created record and the appended collection. -/
def create (data : List Rec) (new_item : Fields) (now : ℕ) : Rec × List Rec :=
  let new_id := new_id_of data
  let created_item : Rec :=
    { id := new_item.id.getD new_id
      created_at := now
      updated_at := now
      payload := new_item.payload }
  (created_item, data ++ [created_item])

/-- N successive calls of create by a single caller, the clock advancing
between calls. -/
def createMany (data : List Rec) (items : List Fields) (now : ℕ) : List Rec :=
  match items with
  | [] => data
  | it :: rest => createMany (create data it now).2 rest (now + 1)

/-- The dict.update merge performed by DataManager.update on the matched
record, followed by setting updated_at to now (the source assigns
updated_at after the merge, so it wins over any updated_at in the
updates dict). -/
def applyUpdates (r : Rec) (u : Updates) (now : ℕ) : Rec :=
  { id := u.id.getD r.id
    created_at := u.created_at.getD r.created_at
    updated_at := now
    payload := u.payload.getD r.payload }

/-- Embeds DataManager.update: find the first record whose id matches
(the source compares str(id) values; on integer ids that is integer
equality), merge the updates into it, and return the updated record
together with the new collection; (none, data) when the id is absent. -/
def update (data : List Rec) (item_id : ℤ) (updates : Updates) (now : ℕ) :
    Option Rec × List Rec :=
  match data with
  | [] => (none, [])
  | r :: rest =>
    if r.id = item_id then
      let merged := applyUpdates r updates now
      (some merged, merged :: rest)
    else
      let next := update rest item_id updates now
      (next.1, r :: next.2)

/-- Generic embedding of DataManager.find_by_id over any entity list:
first record whose id equals the requested id. -/
def find_by_id {α : Type} (getId : α → ℤ) (l : List α) (item_id : ℤ) : Option α :=
  l.find? fun r => getId r = item_id

/-- The base-service validate treats an empty dict as invalid; an Updates
value with every key absent models the empty dict. -/
def emptyUpdates (u : Updates) : Bool :=
  u.id = none && u.created_at = none && u.updated_at = none && u.payload = none

/-- Embeds BaseService.update: existence check via get_by_id, the base
validate (non-empty data), then DataManager.update. -/
def service_update (data : List Rec) (item_id : ℤ) (u : Updates) (now : ℕ) :
    Except String (Rec × List Rec) :=
  match find_by_id Rec.id data item_id with
  | none => Except.error "not found"
  | some _ =>
    if emptyUpdates u then Except.error "Data cannot be empty"
    else
      match update data item_id u now with
      | (none, _) => Except.error "not found"
      | (some r, newData) => Except.ok (r, newData)

end DataManager

/-- A property/room record, restricted to the fields the embedded
services read. -/
structure Room where
  id : ℤ
  price_per_night : Option ℚ := none
  max_guests : Option ℤ := none
deriving DecidableEq

/-- A user record, restricted to the fields the embedded services read. -/
structure UserAccount where
  id : ℤ
  email : String
  password : String := ""
  first_name : String := ""
  last_name : String := ""
deriving DecidableEq

/-- A booking record.  check_in and check_out are day numbers standing in
for the ISO date strings of the source (whole-day resolution). -/
structure Booking where
  id : ℤ
  property_id : ℤ
  guest_id : ℤ
  status : String
  check_in : ℤ
  check_out : ℤ
deriving DecidableEq

/-- A review record.  created_at is a timestamp number standing in for the
ISO timestamp string of the source. -/
structure Review where
  id : ℤ
  property_id : ℤ
  guest_id : ℤ
  booking_id : ℤ
  overall_rating : ℤ
  cleanliness_rating : Option ℤ := none
  accuracy_rating : Option ℤ := none
  communication_rating : Option ℤ := none
  location_rating : Option ℤ := none
  check_in_rating : Option ℤ := none
  value_rating : Option ℤ := none
  comment : String := ""
  is_public : Option Bool := none
  created_at : ℕ := 0
deriving DecidableEq

/-- A payment or refund record (refunds carry a negative amount and an
original_payment_id). -/
structure Payment where
  id : ℤ
  booking_id : ℤ
  amount : ℚ
  payment_method : String := "credit_card"
  status : String
  original_payment_id : Option ℤ := none
  transaction_type : Option String := none
  currency : Option String := none
  transaction_id : Option String := none
  refund_reason : Option String := none
deriving DecidableEq

/-- The service-layer exception taxonomy of base_service. -/
inductive ServiceErr where
  | validationError (msg : String)
  | notFoundError (msg : String)
  | conflictError (msg : String)
deriving DecidableEq

namespace BookingService

/-- Embeds BookingService._check_availability: among the bookings of the
property, any booking with status confirmed or pending whose half-open
range overlaps the requested range makes the property unavailable. -/
def check_availability (bookings : List Booking)
    (property_id check_in check_out : ℤ) : Bool :=
  let existing_bookings := bookings.filter fun b => b.property_id = property_id
  existing_bookings.all fun b =>
    if b.status = "confirmed" ∨ b.status = "pending" then
      decide (check_out ≤ b.check_in ∨ check_in ≥ b.check_out)
    else true

/-- The booking fields read by calculate_total_price. -/
structure BookingData where
  room_id : ℤ
  check_in : ℤ
  check_out : ℤ
deriving DecidableEq

/-- Embeds BookingService.calculate_total_price: nights times nightly
price, plus a 10 percent service fee and 5 percent taxes, rounded to two
decimal places.  The nightly price is read with a default of 0. -/
def calculate_total_price (rooms : List Room) (bd : BookingData) :
    Except String ℚ :=
  match DataManager.find_by_id Room.id rooms bd.room_id with
  | none => Except.error "Property not found"
  | some property_data =>
    let nights : ℤ := bd.check_out - bd.check_in
    let price_per_night : ℚ := property_data.price_per_night.getD 0
    let total_price : ℚ := (nights : ℚ) * price_per_night
    let service_fee := total_price * (1/10)
    let taxes := total_price * (1/20)
    Except.ok (round2 (total_price + service_fee + taxes))

end BookingService

namespace PaymentService

/-- A payment-creation dict as handed to PaymentService.create, with the
three required fields (booking_id, amount, payment_method) present -
the refund path always supplies them - and the optional keys the refund
dict carries. -/
structure PaymentData where
  booking_id : ℤ
  amount : ℚ
  payment_method : String
  status : Option String := none
  currency : Option String := none
  transaction_id : Option String := none
  original_payment_id : Option ℤ := none
  transaction_type : Option String := none
  refund_reason : Option String := none
deriving DecidableEq

/-- The payment methods accepted by PaymentService.validate_data. -/
def valid_methods : List String :=
  ["credit_card", "debit_card", "paypal", "bank_transfer", "apple_pay",
   "google_pay"]

/-- Embeds PaymentService.validate_data for the create operation: the
referenced booking must exist, the amount must be a positive number, and
the payment method must be an accepted one; then the status, currency
and transaction_id defaults are filled in.  gen_txn stands for the
clock-and-uuid transaction id the source generates. -/
def validate_data (bookings : List Booking) (gen_txn : String)
    (data : PaymentData) : Except ServiceErr PaymentData :=
  match DataManager.find_by_id Booking.id bookings data.booking_id with
  | none => Except.error (ServiceErr.validationError "Booking not found")
  | some _ =>
    if data.amount ≤ 0 then
      Except.error (ServiceErr.validationError "Amount must be a positive number")
    else if data.payment_method ∉ valid_methods then
      Except.error (ServiceErr.validationError "Invalid payment method")
    else
      Except.ok
        { data with
            status := some (data.status.getD "pending")
            currency := some (data.currency.getD "USD")
            transaction_id := some (data.transaction_id.getD gen_txn) }

/-- Embeds BaseService.create on the payments collection:
PaymentService.validate_data, then the DataManager.create id assignment
and append (the timestamp merge is not modelled on payment records).  A
ValidationError raised by the validation propagates to the caller. -/
def create (bookings : List Booking) (payments : List Payment)
    (gen_txn : String) (data : PaymentData) :
    Except ServiceErr (Payment × List Payment) :=
  match validate_data bookings gen_txn data with
  | Except.error e => Except.error e
  | Except.ok validated =>
    let new_id : ℤ :=
      match payments.map Payment.id with
      | [] => 1
      | x :: xs => xs.foldl max x + 1
    let created : Payment :=
      { id := new_id
        booking_id := validated.booking_id
        amount := validated.amount
        payment_method := validated.payment_method
        status := validated.status.getD "pending"
        original_payment_id := validated.original_payment_id
        transaction_type := validated.transaction_type
        currency := validated.currency
        transaction_id := validated.transaction_id
        refund_reason := validated.refund_reason }
    Except.ok (created, payments ++ [created])

/-- Embeds PaymentService.initiate_refund up to and including the
self.create call on the refund dict (the later gateway simulation and
status updates are random and out of scope): the payment must be
completed; the refund amount, defaulting to the original amount minus
total_refunded, must be positive; total_refunded plus the refund amount
must not exceed the original amount, where total_refunded sums the
stored (negated) amount fields of completed linked refunds; and the
refund dict, carrying the negated amount, is then handed to create,
whose validation checks the amount again. -/
def initiate_refund (bookings : List Booking) (payments : List Payment)
    (payment_id : ℤ) (refund_amount : Option ℚ) (reason : String)
    (gen_txn : String) : Except ServiceErr (Payment × List Payment) :=
  match DataManager.find_by_id Payment.id payments payment_id with
  | none => Except.error (ServiceErr.notFoundError "Payment not found")
  | some payment =>
    if payment.status ≠ "completed" then
      Except.error (ServiceErr.validationError "Can only refund completed payments")
    else
      let existing_refunds :=
        payments.filter fun p => p.original_payment_id = some payment_id
      let total_refunded : ℚ :=
        ((existing_refunds.filter fun p => p.status = "completed").map
          Payment.amount).sum
      let original_amount := payment.amount
      let x := refund_amount.getD (original_amount - total_refunded)
      if x ≤ 0 then
        Except.error (ServiceErr.validationError "Invalid refund amount")
      else if total_refunded + x > original_amount then
        Except.error (ServiceErr.validationError "Refund amount exceeds original payment")
      else
        create bookings payments gen_txn
          { booking_id := payment.booking_id
            amount := -x
            payment_method := payment.payment_method
            status := some "pending"
            original_payment_id := some payment_id
            transaction_type := some "refund"
            refund_reason := some reason
            currency := some (payment.currency.getD "USD") }

end PaymentService

namespace ReviewService

/-- The review-creation request dict with its required fields present
(requests missing a required field are rejected up front by the
required-fields loop and are outside this model). -/
structure ReviewData where
  property_id : ℤ
  guest_id : ℤ
  booking_id : ℤ
  overall_rating : ℤ
  comment : String
  cleanliness_rating : Option ℤ := none
  accuracy_rating : Option ℤ := none
  communication_rating : Option ℤ := none
  location_rating : Option ℤ := none
  check_in_rating : Option ℤ := none
  value_rating : Option ℤ := none
  is_public : Option Bool := none
deriving DecidableEq

/-- A rating value must be an integer between 1 and 5. -/
def ratingOk (r : ℤ) : Bool := 1 ≤ r && r ≤ 5

/-- An optional rating field is checked only when present. -/
def ratingFieldOk : Option ℤ → Bool
  | none => true
  | some r => ratingOk r

/-- Embeds ReviewService.validate_data for the create operation: the
property, user and booking must exist, the booking must belong to the
guest and the property, the booking must be completed, no review may
already exist for the booking, ratings must lie in 1..5, and the comment
length must lie in 10..1000; is_public defaults to true. -/
def validate_data (rooms : List Room) (users : List UserAccount)
    (bookings : List Booking) (reviews : List Review) (data : ReviewData) :
    Except ServiceErr ReviewData :=
  match DataManager.find_by_id Room.id rooms data.property_id with
  | none => Except.error (ServiceErr.validationError "Property not found")
  | some _ =>
    match DataManager.find_by_id UserAccount.id users data.guest_id with
    | none => Except.error (ServiceErr.validationError "User not found")
    | some _ =>
      match DataManager.find_by_id Booking.id bookings data.booking_id with
      | none => Except.error (ServiceErr.validationError "Booking not found")
      | some booking =>
        if booking.guest_id ≠ data.guest_id then
          Except.error (ServiceErr.validationError "You can only review your own bookings")
        else if booking.property_id ≠ data.property_id then
          Except.error (ServiceErr.validationError "Booking does not match the property")
        else if booking.status ≠ "completed" then
          Except.error (ServiceErr.validationError "You can only review completed bookings")
        else if (reviews.filter fun r => r.booking_id = data.booking_id) ≠ [] then
          Except.error (ServiceErr.validationError "Review already exists for this booking")
        else if ¬ (ratingOk data.overall_rating
            && ratingFieldOk data.cleanliness_rating
            && ratingFieldOk data.accuracy_rating
            && ratingFieldOk data.communication_rating
            && ratingFieldOk data.location_rating
            && ratingFieldOk data.check_in_rating
            && ratingFieldOk data.value_rating) then
          Except.error (ServiceErr.validationError "rating must be an integer between 1 and 5")
        else if data.comment.length < 10 then
          Except.error (ServiceErr.validationError "Comment must be at least 10 characters long")
        else if data.comment.length > 1000 then
          Except.error (ServiceErr.validationError "Comment cannot exceed 1000 characters")
        else
          Except.ok { data with is_public := some (data.is_public.getD true) }

/-- Stable insertion into a list kept in descending created_at order; on
equal timestamps the inserted (originally earlier) element stays first,
matching the stability of the Python sort. -/
def insertByCreatedDesc (r : Review) : List Review → List Review
  | [] => [r]
  | x :: xs =>
    if x.created_at ≤ r.created_at then r :: x :: xs
    else x :: insertByCreatedDesc r xs

/-- Stable sort by created_at descending, embedding
sorted(reviews, key=created_at, reverse=True). -/
def sortByCreatedDesc : List Review → List Review
  | [] => []
  | r :: rest => insertByCreatedDesc r (sortByCreatedDesc rest)

/-- Embeds ReviewService._calculate_rating_trend: with fewer than 10
reviews the data is insufficient; otherwise the mean overall rating of
the 10 most recent reviews is compared with the mean of the following
block of up to 10 (the two branches of the source both yield the slice
from position 10 to 20), with thresholds of plus and minus 0.3. -/
def calculate_rating_trend (reviews : List Review) : String :=
  if reviews.length < 10 then "insufficient_data"
  else
    let sorted_reviews := sortByCreatedDesc reviews
    let recent_10 := sorted_reviews.take 10
    let previous_10 :=
      if sorted_reviews.length ≥ 20 then (sorted_reviews.drop 10).take 10
      else sorted_reviews.drop 10
    if previous_10 = [] then "stable"
    else
      let recent_avg : ℚ :=
        ((recent_10.map fun r => (r.overall_rating : ℚ)).sum) / recent_10.length
      let previous_avg : ℚ :=
        ((previous_10.map fun r => (r.overall_rating : ℚ)).sum) / previous_10.length
      let diff := recent_avg - previous_avg
      if diff > 3/10 then "improving"
      else if diff < -(3/10) then "declining"
      else "stable"

/-- The statistics dict returned by get_review_statistics.  The two dict
fields are ordered association lists, matching Python dict insertion
order. -/
structure ReviewStats where
  total_reviews : ℕ
  average_rating : ℚ
  rating_distribution : List (String × ℕ)
  category_averages : List (String × ℚ)
  recent_trend : String
deriving DecidableEq

/-- The six category-rating fields in the order the source iterates
them. -/
def categoryFields : List (String × (Review → Option ℤ)) :=
  [("cleanliness_rating", Review.cleanliness_rating),
   ("accuracy_rating", Review.accuracy_rating),
   ("communication_rating", Review.communication_rating),
   ("location_rating", Review.location_rating),
   ("check_in_rating", Review.check_in_rating),
   ("value_rating", Review.value_rating)]

/-- Python truthiness of r.get(category): present and non-zero. -/
def truthyRating : Option ℤ → Bool
  | none => false
  | some v => v ≠ 0

/-- The category_averages loop of get_review_statistics: per category,
the mean over the reviews with a truthy value for it, rounded to two
decimals; categories with no data are omitted. -/
def categoryAverages (public_reviews : List Review) : List (String × ℚ) :=
  categoryFields.foldr
    (fun cf acc =>
      let ratings :=
        (public_reviews.filter fun r => truthyRating (cf.2 r)).map
          fun r => ((cf.2 r).getD 0 : ℚ)
      if ratings = [] then acc
      else (cf.1, round2 (ratings.sum / ratings.length)) :: acc)
    []

/-- Embeds ReviewService.get_review_statistics: over the public reviews
of the property, the rounded mean overall rating, the star-bucket
distribution keyed by the strings 1..5, the category means and the
recent trend; a fixed empty result when there are no public reviews. -/
def get_review_statistics (reviews : List Review) (property_id : ℤ) :
    ReviewStats :=
  let property_reviews := reviews.filter fun r => r.property_id = property_id
  let public_reviews := property_reviews.filter fun r => r.is_public.getD true
  if public_reviews = [] then
    { total_reviews := 0
      average_rating := 0
      rating_distribution := []
      category_averages := []
      recent_trend := "stable" }
  else
    let total_reviews := public_reviews.length
    let overall_ratings := public_reviews.map Review.overall_rating
    let average_rating : ℚ :=
      ((overall_ratings.map (Int.cast : ℤ → ℚ)).sum) / total_reviews
    let rating_distribution :=
      ([1, 2, 3, 4, 5] : List ℤ).map fun rating =>
        (toString rating, (overall_ratings.filter fun r => r = rating).length)
    { total_reviews := total_reviews
      average_rating := round2 average_rating
      rating_distribution := rating_distribution
      category_averages := categoryAverages public_reviews
      recent_trend := calculate_rating_trend public_reviews }

end ReviewService

namespace UserService

/-- The characters admitted by the local-part class of the email regex. -/
def classACh (c : Char) : Bool :=
  c.isAlpha || c.isDigit || c = '.' || c = '_' || c = '%' || c = '+' || c = '-'

/-- The characters admitted by the domain class of the email regex. -/
def classBCh (c : Char) : Bool :=
  c.isAlpha || c.isDigit || c = '.' || c = '-'

/-- Embeds the email regex of UserService.validate_data: a non-empty
local part over its class, one at-sign, a non-empty domain over its
class, a dot, and a trailing alphabetic top-level domain of length at
least two.  Since the top-level domain is purely alphabetic it follows
the last dot, which makes this direct decomposition equivalent to the
backtracking regex (modulo the trailing-newline quirk of the dollar
anchor, irrelevant here). -/
def email_format_ok (s : String) : Bool :=
  match s.data.splitOn '@' with
  | [localPart, rest] =>
    localPart ≠ [] && localPart.all classACh &&
      (let segs := rest.splitOn '.'
       decide (segs.length ≥ 2) &&
         (let tld := segs.getLastD []
          let domain_len := rest.length - tld.length - 1
          decide (0 < domain_len) && (rest.take domain_len).all classBCh &&
            decide (tld.length ≥ 2) && tld.all Char.isAlpha))
  | _ => false

/-- Python str.lower restricted to the character-wise case mapping. -/
def pyLower (s : String) : String := String.mk (s.data.map Char.toLower)

/-- The whitespace stripped by Python str.strip. -/
def isPySpace (c : Char) : Bool :=
  c = ' ' || c = '\t' || c = '\n' || c = '\r' || c = '\x0b' || c = '\x0c'

/-- Python str.strip: remove leading and trailing whitespace. -/
def pyStrip (s : String) : String :=
  String.mk (((s.data.dropWhile isPySpace).reverse.dropWhile isPySpace).reverse)

/-- The user-creation request dict with its required fields present. -/
structure UserData where
  email : String
  password : String
  first_name : String
  last_name : String
deriving DecidableEq

/-- Embeds UserService.validate_data for the create operation, in source
order: required fields non-falsy, email format, email uniqueness by
exact match against the raw (un-normalised) email, password length, and
only then the sanitisation that lowercases and strips the email. -/
def validate_data (users : List UserAccount) (data : UserData) :
    Except ServiceErr UserData :=
  if data.email = "" || data.password = "" || data.first_name = ""
      || data.last_name = "" then
    Except.error (ServiceErr.validationError "required field missing or empty")
  else if ¬ email_format_ok data.email then
    Except.error (ServiceErr.validationError "Invalid email format")
  else if (users.filter fun u => u.email = data.email) ≠ [] then
    Except.error (ServiceErr.conflictError "Email already registered")
  else if data.password.length < 8 then
    Except.error (ServiceErr.validationError "Password must be at least 8 characters long")
  else
    Except.ok
      { data with
          email := pyStrip (pyLower data.email)
          first_name := pyStrip data.first_name
          last_name := pyStrip data.last_name }

end UserService

/-- The id sequence 1..n that a fresh collection accumulates. -/
def rangeIds (n : ℕ) : List ℤ :=
  (List.range n).map fun i : ℕ => (i : ℤ) + 1

/-- Twenty sample reviews of one property, listed in descending creation
order: the ten most recent are rated 5, the preceding ten are rated 4. -/
def twentyReviews : List Review :=
  [{ id := 1, property_id := 1, guest_id := 1, booking_id := 1,
     overall_rating := 5, created_at := 20 },
   { id := 2, property_id := 1, guest_id := 1, booking_id := 2,
     overall_rating := 5, created_at := 19 },
   { id := 3, property_id := 1, guest_id := 1, booking_id := 3,
     overall_rating := 5, created_at := 18 },
   { id := 4, property_id := 1, guest_id := 1, booking_id := 4,
     overall_rating := 5, created_at := 17 },
   { id := 5, property_id := 1, guest_id := 1, booking_id := 5,
     overall_rating := 5, created_at := 16 },
   { id := 6, property_id := 1, guest_id := 1, booking_id := 6,
     overall_rating := 5, created_at := 15 },
   { id := 7, property_id := 1, guest_id := 1, booking_id := 7,
     overall_rating := 5, created_at := 14 },
   { id := 8, property_id := 1, guest_id := 1, booking_id := 8,
     overall_rating := 5, created_at := 13 },
   { id := 9, property_id := 1, guest_id := 1, booking_id := 9,
     overall_rating := 5, created_at := 12 },
   { id := 10, property_id := 1, guest_id := 1, booking_id := 10,
     overall_rating := 5, created_at := 11 },
   { id := 11, property_id := 1, guest_id := 1, booking_id := 11,
     overall_rating := 4, created_at := 10 },
   { id := 12, property_id := 1, guest_id := 1, booking_id := 12,
     overall_rating := 4, created_at := 9 },
   { id := 13, property_id := 1, guest_id := 1, booking_id := 13,
     overall_rating := 4, created_at := 8 },
   { id := 14, property_id := 1, guest_id := 1, booking_id := 14,
     overall_rating := 4, created_at := 7 },
   { id := 15, property_id := 1, guest_id := 1, booking_id := 15,
     overall_rating := 4, created_at := 6 },
   { id := 16, property_id := 1, guest_id := 1, booking_id := 16,
     overall_rating := 4, created_at := 5 },
   { id := 17, property_id := 1, guest_id := 1, booking_id := 17,
     overall_rating := 4, created_at := 4 },
   { id := 18, property_id := 1, guest_id := 1, booking_id := 18,
     overall_rating := 4, created_at := 3 },
   { id := 19, property_id := 1, guest_id := 1, booking_id := 19,
     overall_rating := 4, created_at := 2 },
   { id := 20, property_id := 1, guest_id := 1, booking_id := 20,
     overall_rating := 4, created_at := 1 }]

end Airbnb

open Airbnb

/-- Helper: the per-booking guard of the availability loop fails exactly
for an active booking whose range overlaps. -/
theorem guard_ite_false_iff (c d : Prop) [Decidable c] [Decidable d] :
    ¬ ((if c then decide d else true) = true) ↔ c ∧ ¬ d := by
  by_cases hc : c <;> simp [hc]

/-- C1: booking availability uses a half-open interval overlap test: the
check reports unavailable exactly when some existing booking of the
property with status pending or confirmed satisfies
not (requested_out <= existing_in or requested_in >= existing_out);
in particular, against a confirmed booking on days [1, 5) a request for
[5, 8) is available and a request for [4, 6) is unavailable. -/
theorem c1_availability_half_open_overlap :
    (∀ (bookings : List Booking) (pid ci co : ℤ),
        BookingService.check_availability bookings pid ci co = false ↔
          ∃ b ∈ bookings, b.property_id = pid ∧
            (b.status = "pending" ∨ b.status = "confirmed") ∧
            ¬ (co ≤ b.check_in ∨ ci ≥ b.check_out)) ∧
    BookingService.check_availability
      [{ id := 1, property_id := 7, guest_id := 2, status := "confirmed",
         check_in := 1, check_out := 5 }] 7 5 8 = true ∧
    BookingService.check_availability
      [{ id := 1, property_id := 7, guest_id := 2, status := "confirmed",
         check_in := 1, check_out := 5 }] 7 4 6 = false := by
  refine ⟨?_, by decide, by decide⟩
  intro bookings pid ci co
  unfold BookingService.check_availability
  rw [List.all_eq_false]
  constructor
  · rintro ⟨b, hb, hguard⟩
    rw [List.mem_filter] at hb
    obtain ⟨hmem, hpid⟩ := hb
    rw [guard_ite_false_iff] at hguard
    exact ⟨b, hmem, by simpa using hpid, hguard.1.symm, hguard.2⟩
  · rintro ⟨b, hmem, hpid, hstat, hover⟩
    refine ⟨b, List.mem_filter.mpr ⟨hmem, by simpa using hpid⟩, ?_⟩
    rw [guard_ite_false_iff]
    exact ⟨hstat.symm, hover⟩

/-- C2: for a booking over an existing property with nightly price p and
valid dates, the total price is
round(nights*p + nights*p*0.10 + nights*p*0.05, 2) with nights the
whole-day difference of the dates. -/
theorem c2_total_price_formula
    (rooms : List Room) (bd : BookingService.BookingData)
    (room : Room) (p : ℚ)
    (hfind : DataManager.find_by_id Room.id rooms bd.room_id = some room)
    (hp : room.price_per_night = some p)
    (hdates : bd.check_in < bd.check_out) :
    BookingService.calculate_total_price rooms bd =
      Except.ok (round2
        (((bd.check_out - bd.check_in : ℤ) : ℚ) * p
          + ((bd.check_out - bd.check_in : ℤ) : ℚ) * p * (1/10)
          + ((bd.check_out - bd.check_in : ℤ) : ℚ) * p * (1/20))) := by
  unfold BookingService.calculate_total_price
  rw [hfind]
  simp only [hp, Option.getD_some]

/-- C2 witness: 100 per night for 3 nights totals 345.00. -/
theorem c2_total_price_witness :
    BookingService.calculate_total_price
      [{ id := 1, price_per_night := some 100 }]
      { room_id := 1, check_in := 0, check_out := 3 } = Except.ok 345 := by
  have h := c2_total_price_formula
    [{ id := 1, price_per_night := some 100 }]
    { room_id := 1, check_in := 0, check_out := 3 }
    { id := 1, price_per_night := some 100 } 100 (by rfl) rfl (by norm_num)
  rw [h]
  norm_num [round2, roundHalfEven]

/-- C10: a caller-supplied id key in the fields dict overrides the
auto-generated id, because the caller fields are merged after the
generated id; in particular creating into a collection that already
holds id 5 with fields carrying id 5 yields two records with id 5. -/
theorem c10_caller_supplied_id_wins :
    (∀ (data : List DataManager.Rec) (k : ℤ) (co cu : Option ℕ) (p now : ℕ),
        (DataManager.create data
            { id := some k, created_at := co, updated_at := cu, payload := p }
            now).1.id = k ∧
        (DataManager.create data
            { id := some k, created_at := co, updated_at := cu, payload := p }
            now).2 =
          data ++ [(DataManager.create data
            { id := some k, created_at := co, updated_at := cu, payload := p }
            now).1]) ∧
    (DataManager.create [{ id := 5, created_at := 0, updated_at := 0, payload := 0 }]
        { id := some 5, payload := 1 } 1).2.map DataManager.Rec.id = [5, 5] := by
  refine ⟨fun data k co cu p now => ⟨rfl, rfl⟩, by decide⟩

/-- C3: the refund path misbehaves at the spec example in two compounding
ways.  Against a completed payment of 200 with a prior completed refund
of 150 (stored with amount -150): the request for 100 does fail with a
ValidationError, but from the amount-positivity check that create runs
on the negated refund amount, not from the refund ceiling - the ceiling
guard sums the stored negative amounts and compares -150 + 100 with 200,
so it passes even though 150 + 100 exceeds 200.  The request for 50,
which the claim says succeeds, fails with the same ValidationError, so
no refund record is ever created; and the ceiling message only fires
once the requested amount exceeds the original amount plus prior
refunds, as with 360. -/
theorem c3_refund_requests_always_rejected :
    PaymentService.initiate_refund
        [{ id := 10, property_id := 7, guest_id := 2, status := "completed",
           check_in := 1, check_out := 5 }]
        [{ id := 1, booking_id := 10, amount := 200, status := "completed" },
         { id := 2, booking_id := 10, amount := -150, status := "completed",
           original_payment_id := some 1, transaction_type := some "refund" }]
        1 (some 100) "Customer request" "TXN_1" =
      Except.error (ServiceErr.validationError "Amount must be a positive number") ∧
    PaymentService.initiate_refund
        [{ id := 10, property_id := 7, guest_id := 2, status := "completed",
           check_in := 1, check_out := 5 }]
        [{ id := 1, booking_id := 10, amount := 200, status := "completed" },
         { id := 2, booking_id := 10, amount := -150, status := "completed",
           original_payment_id := some 1, transaction_type := some "refund" }]
        1 (some 50) "Customer request" "TXN_1" =
      Except.error (ServiceErr.validationError "Amount must be a positive number") ∧
    PaymentService.initiate_refund
        [{ id := 10, property_id := 7, guest_id := 2, status := "completed",
           check_in := 1, check_out := 5 }]
        [{ id := 1, booking_id := 10, amount := 200, status := "completed" },
         { id := 2, booking_id := 10, amount := -150, status := "completed",
           original_payment_id := some 1, transaction_type := some "refund" }]
        1 (some 360) "Customer request" "TXN_1" =
      Except.error (ServiceErr.validationError "Refund amount exceeds original payment") ∧
    (150 : ℚ) + 100 > 200 := by
  refine ⟨?_, ?_, ?_, by norm_num⟩ <;>
    norm_num [PaymentService.initiate_refund, PaymentService.create,
      PaymentService.validate_data, PaymentService.valid_methods,
      DataManager.find_by_id, List.find?, List.filter]

/-- C9 counterexample: an update whose fields include an id key changes
the stored id; updating the record with id 1 by a dict carrying id 99
leaves the collection with id 99 instead of 1. -/
theorem c9_id_overwritten_counterexample :
    ¬ ((DataManager.update
          [{ id := 1, created_at := 0, updated_at := 0, payload := 7 }]
          1 { id := some 99 } 5).2.map DataManager.Rec.id =
        ([{ id := 1, created_at := 0, updated_at := 0, payload := 7 }] :
          List DataManager.Rec).map DataManager.Rec.id) := by
  decide

/-- C9 (amended): record ids are immutable under every Record Store or
service-layer update whose fields dict does not itself carry an id key;
an update supplying an id key overwrites the stored id. -/
theorem c9_id_immutable_amended
    (data : List DataManager.Rec) (item_id : ℤ)
    (u : DataManager.Updates) (now : ℕ) (h : u.id = none) :
    ((DataManager.update data item_id u now).2.map DataManager.Rec.id =
        data.map DataManager.Rec.id) ∧
    (∀ res, DataManager.service_update data item_id u now = Except.ok res →
        res.2.map DataManager.Rec.id = data.map DataManager.Rec.id) := by
  have hmain : ∀ (d : List DataManager.Rec),
      (DataManager.update d item_id u now).2.map DataManager.Rec.id =
        d.map DataManager.Rec.id := by
    intro d
    induction d with
    | nil => rfl
    | cons r rest ih =>
      unfold DataManager.update
      by_cases hr : r.id = item_id
      · simp [hr, DataManager.applyUpdates, h]
      · simp [hr, ih]
  refine ⟨hmain data, ?_⟩
  intro res hres
  unfold DataManager.service_update at hres
  cases hfind : DataManager.find_by_id DataManager.Rec.id data item_id with
  | none => rw [hfind] at hres; exact absurd hres (by simp)
  | some r0 =>
    rw [hfind] at hres
    by_cases hemp : DataManager.emptyUpdates u = true
    · rw [if_pos hemp] at hres; exact absurd hres (by simp)
    · rw [if_neg hemp] at hres
      cases hupd : DataManager.update data item_id u now with
      | mk o newData =>
        rw [hupd] at hres
        cases o with
        | none => exact absurd hres (by simp)
        | some r =>
          simp only [Except.ok.injEq] at hres
          have h2 : res.2 = newData := by rw [← hres]
          rw [h2, show newData = (DataManager.update data item_id u now).2 by rw [hupd]]
          exact hmain data

/-- C9 witness: an id-free update (changing only the payload) preserves
the stored ids. -/
theorem c9_id_immutable_witness :
    (DataManager.update
        [{ id := 1, created_at := 0, updated_at := 0, payload := 7 }]
        1 { payload := some 3 } 5).2.map DataManager.Rec.id = [1] := by
  have h := (c9_id_immutable_amended
    [{ id := 1, created_at := 0, updated_at := 0, payload := 7 }]
    1 { payload := some 3 } 5 rfl).1
  rw [h]
  decide

/-- C4: review creation is gated on the booking: if the referenced
booking exists with a status other than completed the validation fails,
if a review already exists for the booking the validation fails, and a
validation that succeeds implies the booking exists, is completed and
has no prior review. -/
theorem c4_review_gating
    (rooms : List Room) (users : List UserAccount) (bookings : List Booking)
    (reviews : List Review) (d : ReviewService.ReviewData) :
    (∀ b, DataManager.find_by_id Booking.id bookings d.booking_id = some b →
        b.status ≠ "completed" →
        (ReviewService.validate_data rooms users bookings reviews d).isOk = false) ∧
    ((∃ r ∈ reviews, r.booking_id = d.booking_id) →
        (ReviewService.validate_data rooms users bookings reviews d).isOk = false) ∧
    (∀ out, ReviewService.validate_data rooms users bookings reviews d =
          Except.ok out →
        ∃ b, DataManager.find_by_id Booking.id bookings d.booking_id = some b ∧
          b.status = "completed" ∧ ∀ r ∈ reviews, r.booking_id ≠ d.booking_id) := by
  refine ⟨?_, ?_, ?_⟩
  · intro b hb hstat
    unfold ReviewService.validate_data
    rw [hb]
    cases h1 : DataManager.find_by_id Room.id rooms d.property_id with
    | none => simp [Except.isOk, Except.toBool]
    | some room =>
      cases h2 : DataManager.find_by_id UserAccount.id users d.guest_id with
      | none => simp [Except.isOk, Except.toBool]
      | some u =>
        by_cases hg : b.guest_id = d.guest_id
        · by_cases hpp : b.property_id = d.property_id
          · simp [hg, hpp, hstat, Except.isOk, Except.toBool]
          · simp [hg, hpp, Except.isOk, Except.toBool]
        · simp [hg, Except.isOk, Except.toBool]
  · rintro ⟨r, hr, hrb⟩
    unfold ReviewService.validate_data
    cases h1 : DataManager.find_by_id Room.id rooms d.property_id with
    | none => simp [Except.isOk, Except.toBool]
    | some room =>
      cases h2 : DataManager.find_by_id UserAccount.id users d.guest_id with
      | none => simp [Except.isOk, Except.toBool]
      | some u =>
        cases h3 : DataManager.find_by_id Booking.id bookings d.booking_id with
        | none => simp [Except.isOk, Except.toBool]
        | some b =>
          have hfil : (reviews.filter fun x => x.booking_id = d.booking_id) ≠ [] := by
            intro hnil
            have := List.filter_eq_nil_iff.mp hnil r hr
            simp [hrb] at this
          by_cases hg : b.guest_id = d.guest_id
          · by_cases hpp : b.property_id = d.property_id
            · by_cases hst : b.status = "completed"
              · simp [hg, hpp, hst, hfil, Except.isOk, Except.toBool]
              · simp [hg, hpp, hst, Except.isOk, Except.toBool]
            · simp [hg, hpp, Except.isOk, Except.toBool]
          · simp [hg, Except.isOk, Except.toBool]
  · intro out hout
    unfold ReviewService.validate_data at hout
    cases h1 : DataManager.find_by_id Room.id rooms d.property_id with
    | none => rw [h1] at hout; exact absurd hout (by simp)
    | some room =>
      rw [h1] at hout
      cases h2 : DataManager.find_by_id UserAccount.id users d.guest_id with
      | none => rw [h2] at hout; exact absurd hout (by simp)
      | some u =>
        rw [h2] at hout
        cases h3 : DataManager.find_by_id Booking.id bookings d.booking_id with
        | none => rw [h3] at hout; exact absurd hout (by simp)
        | some b =>
          rw [h3] at hout
          by_cases hg : b.guest_id = d.guest_id
          · by_cases hpp : b.property_id = d.property_id
            · by_cases hst : b.status = "completed"
              · by_cases hrev :
                    (reviews.filter fun x => x.booking_id = d.booking_id) = []
                · refine ⟨b, rfl, hst, ?_⟩
                  intro r hr
                  have := List.filter_eq_nil_iff.mp hrev r hr
                  simpa using this
                · simp [hg, hpp, hst, hrev] at hout
              · simp [hg, hpp, hst] at hout
            · simp [hg, hpp] at hout
          · simp [hg] at hout

/-- C4 witness: a pending booking cannot be reviewed. -/
theorem c4_review_gating_witness :
    (ReviewService.validate_data
        [{ id := 1 }] [{ id := 2, email := "g@example.com" }]
        [{ id := 3, property_id := 1, guest_id := 2, status := "pending",
           check_in := 1, check_out := 5 }]
        []
        { property_id := 1, guest_id := 2, booking_id := 3,
          overall_rating := 5, comment := "a lovely stay indeed" }).isOk = false := by
  exact (c4_review_gating
    [{ id := 1 }] [{ id := 2, email := "g@example.com" }]
    [{ id := 3, property_id := 1, guest_id := 2, status := "pending",
       check_in := 1, check_out := 5 }]
    []
    { property_id := 1, guest_id := 2, booking_id := 3,
      overall_rating := 5, comment := "a lovely stay indeed" }).1
    { id := 3, property_id := 1, guest_id := 2, status := "pending",
      check_in := 1, check_out := 5 }
    (by rfl) (by decide)

/-- C5: the email-uniqueness check is bypassed by a case variant.  With a
stored user alice at example.com, a create request for the same address
capitalised passes validate_data without a ConflictError, because the
uniqueness lookup compares the raw email before the lowercase
normalisation is applied; the returned record then carries the very same
lowercased email as the stored user. -/
theorem c5_email_case_check_bypassed :
    UserService.validate_data
        [{ id := 1, email := "alice@example.com", password := "password1",
           first_name := "Alice", last_name := "A" }]
        { email := "Alice@Example.com", password := "password1",
          first_name := "Alice", last_name := "A" } =
      Except.ok { email := "alice@example.com", password := "password1",
                  first_name := "Alice", last_name := "A" } ∧
    UserService.pyLower "Alice@Example.com" = "alice@example.com" :=
  ⟨rfl, rfl⟩

/-- C6 counterexample: the statistics do not report the raw mean, and the
distribution is not zero-filled when no public review exists.  Three
public reviews rated 1, 1, 2 have mean 4/3, but average_rating is the
two-decimal rounding 1.33; and with only a private review the
distribution is the empty dict rather than zero-filled buckets. -/
theorem c6_mean_counterexample :
    (ReviewService.get_review_statistics
        [{ id := 1, property_id := 1, guest_id := 1, booking_id := 1,
           overall_rating := 1, created_at := 1 },
         { id := 2, property_id := 1, guest_id := 1, booking_id := 2,
           overall_rating := 1, created_at := 2 },
         { id := 3, property_id := 1, guest_id := 1, booking_id := 3,
           overall_rating := 2, created_at := 3 }] 1).average_rating ≠
      (1 + 1 + 2 : ℚ) / 3 ∧
    (ReviewService.get_review_statistics
        [{ id := 1, property_id := 1, guest_id := 1, booking_id := 1,
           overall_rating := 5, is_public := some false,
           created_at := 1 }] 1).rating_distribution ≠
      [("1", 0), ("2", 0), ("3", 0), ("4", 0), ("5", 0)] := by
  constructor
  · simp only [ReviewService.get_review_statistics]
    split
    · next h => exact absurd h (by decide)
    · norm_num [round2, roundHalfEven, List.filter]
  · decide

/-- C6 (amended): whenever at least one public review of the property
exists, average_rating is the mean of overall_rating over the public
reviews rounded to two decimal places, and rating_distribution buckets
the exact star values 1 to 5 with zero-filled entries for absent
values. -/
theorem c6_statistics_amended
    (reviews : List Review) (pid : ℤ)
    (hne : (reviews.filter fun r => r.property_id = pid).filter
        (fun r => r.is_public.getD true) ≠ []) :
    (ReviewService.get_review_statistics reviews pid).average_rating =
      round2 (mean
        (((reviews.filter fun r => r.property_id = pid).filter
            (fun r => r.is_public.getD true)).map
          fun r => (r.overall_rating : ℚ))) ∧
    (ReviewService.get_review_statistics reviews pid).rating_distribution =
      ([1, 2, 3, 4, 5] : List ℤ).map (fun k =>
        (toString k,
          ((reviews.filter fun r => r.property_id = pid).filter
              (fun r => r.is_public.getD true)).countP
            fun r => r.overall_rating = k)) := by
  unfold ReviewService.get_review_statistics
  rw [if_neg hne]
  constructor
  · simp only [mean, List.map_map, List.length_map]
    rfl
  · refine List.map_congr_left fun k hk => ?_
    rw [List.countP_eq_length_filter, List.filter_map, List.length_map]
    rfl

/-- C6 witness: public reviews rated 5, 5, 4, 3, 5 give average 4.4 and
distribution 1:0, 2:0, 3:1, 4:1, 5:3. -/
theorem c6_statistics_witness :
    (ReviewService.get_review_statistics
        [{ id := 1, property_id := 1, guest_id := 1, booking_id := 1,
           overall_rating := 5, created_at := 1 },
         { id := 2, property_id := 1, guest_id := 1, booking_id := 2,
           overall_rating := 5, created_at := 2 },
         { id := 3, property_id := 1, guest_id := 1, booking_id := 3,
           overall_rating := 4, created_at := 3 },
         { id := 4, property_id := 1, guest_id := 1, booking_id := 4,
           overall_rating := 3, created_at := 4 },
         { id := 5, property_id := 1, guest_id := 1, booking_id := 5,
           overall_rating := 5, created_at := 5 }] 1).average_rating = 22/5 ∧
    (ReviewService.get_review_statistics
        [{ id := 1, property_id := 1, guest_id := 1, booking_id := 1,
           overall_rating := 5, created_at := 1 },
         { id := 2, property_id := 1, guest_id := 1, booking_id := 2,
           overall_rating := 5, created_at := 2 },
         { id := 3, property_id := 1, guest_id := 1, booking_id := 3,
           overall_rating := 4, created_at := 3 },
         { id := 4, property_id := 1, guest_id := 1, booking_id := 4,
           overall_rating := 3, created_at := 4 },
         { id := 5, property_id := 1, guest_id := 1, booking_id := 5,
           overall_rating := 5, created_at := 5 }] 1).rating_distribution =
      [("1", 0), ("2", 0), ("3", 1), ("4", 1), ("5", 3)] := by
  have h := c6_statistics_amended
    [{ id := 1, property_id := 1, guest_id := 1, booking_id := 1,
       overall_rating := 5, created_at := 1 },
     { id := 2, property_id := 1, guest_id := 1, booking_id := 2,
       overall_rating := 5, created_at := 2 },
     { id := 3, property_id := 1, guest_id := 1, booking_id := 3,
       overall_rating := 4, created_at := 3 },
     { id := 4, property_id := 1, guest_id := 1, booking_id := 4,
       overall_rating := 3, created_at := 4 },
     { id := 5, property_id := 1, guest_id := 1, booking_id := 5,
       overall_rating := 5, created_at := 5 }] 1 (by decide)
  refine ⟨?_, ?_⟩
  · rw [h.1]
    norm_num [List.filter, mean, round2, roundHalfEven]
  · rw [h.2]
    decide

/-- Helper: stable descending insertion preserves length. -/
theorem length_insertByCreatedDesc (r : Review) (l : List Review) :
    (ReviewService.insertByCreatedDesc r l).length = l.length + 1 := by
  induction l with
  | nil => rfl
  | cons x xs ih =>
    unfold ReviewService.insertByCreatedDesc
    by_cases h : x.created_at ≤ r.created_at
    · simp [h]
    · simp [h, ih]

/-- Helper: the descending sort preserves length. -/
theorem length_sortByCreatedDesc (l : List Review) :
    (ReviewService.sortByCreatedDesc l).length = l.length := by
  induction l with
  | nil => rfl
  | cons x xs ih =>
    simp [ReviewService.sortByCreatedDesc, length_insertByCreatedDesc, ih]

/-- C7: the rating trend answers insufficient_data exactly when fewer
than 10 reviews exist; and with at least 20 reviews it compares the mean
overall rating of the 10 most recent reviews (by creation time) against
the mean of the preceding 10, answering improving above 0.3, declining
below minus 0.3, and stable otherwise.  (Between 10 and 19 reviews the
preceding block holds fewer than 10 reviews, a case the comparison
clause of the claim does not determine.) -/
theorem c7_rating_trend (reviews : List Review) :
    (ReviewService.calculate_rating_trend reviews = "insufficient_data" ↔
      reviews.length < 10) ∧
    (20 ≤ reviews.length →
      ReviewService.calculate_rating_trend reviews =
        (let sorted := ReviewService.sortByCreatedDesc reviews
         let recent_avg :=
           mean ((sorted.take 10).map fun r => (r.overall_rating : ℚ))
         let previous_avg :=
           mean (((sorted.drop 10).take 10).map fun r => (r.overall_rating : ℚ))
         if recent_avg - previous_avg > 3/10 then "improving"
         else if recent_avg - previous_avg < -(3/10) then "declining"
         else "stable")) := by
  have haux : ¬ reviews.length < 10 →
      ReviewService.calculate_rating_trend reviews ≠ "insufficient_data" := by
    intro hlen
    unfold ReviewService.calculate_rating_trend
    rw [if_neg hlen]
    dsimp only
    by_cases h20 : (ReviewService.sortByCreatedDesc reviews).length ≥ 20
    · rw [if_pos h20]
      split
      · decide
      · split
        · decide
        · split
          · decide
          · decide
    · rw [if_neg h20]
      split
      · decide
      · split
        · decide
        · split
          · decide
          · decide
  constructor
  · constructor
    · intro h
      by_contra hlen
      push_neg at hlen
      exact haux (by omega) h
    · intro h
      unfold ReviewService.calculate_rating_trend
      rw [if_pos h]
  · intro h20
    have hlen : (ReviewService.sortByCreatedDesc reviews).length = reviews.length :=
      length_sortByCreatedDesc reviews
    unfold ReviewService.calculate_rating_trend
    rw [if_neg (by omega)]
    dsimp only
    rw [if_pos (by omega : (ReviewService.sortByCreatedDesc reviews).length ≥ 20)]
    have hprev : ((ReviewService.sortByCreatedDesc reviews).drop 10).take 10 ≠ [] := by
      intro hnil
      have := congrArg List.length hnil
      simp [List.length_take, List.length_drop, hlen] at this
      omega
    rw [if_neg hprev]
    simp only [mean, List.length_map]

/-- C7 witness: with twenty reviews, recent mean 5 against preceding
mean 4 answers improving. -/
theorem c7_rating_trend_witness :
    ReviewService.calculate_rating_trend twentyReviews = "improving" := by
  rw [(c7_rating_trend twentyReviews).2 (by decide)]
  have hs : ReviewService.sortByCreatedDesc twentyReviews = twentyReviews := by
    decide
  dsimp only
  rw [hs]
  norm_num [twentyReviews, mean]

/-- Helper: folding max over a list bounded by the seed returns the
seed. -/
theorem foldl_max_of_le (l : List ℤ) (x : ℤ) (h : ∀ y ∈ l, y ≤ x) :
    l.foldl max x = x := by
  induction l generalizing x with
  | nil => rfl
  | cons a t ih =>
    have ha : a ≤ x := h a (by simp)
    simp only [List.foldl_cons]
    rw [max_eq_left ha]
    exact ih x fun y hy => h y (by simp [hy])

/-- Helper: folding max over a list containing its upper bound m, from a
seed at most m, returns m. -/
theorem foldl_max_eq_of_mem (l : List ℤ) (m : ℤ) :
    ∀ x, m ∈ l → (∀ y ∈ l, y ≤ m) → x ≤ m → l.foldl max x = m := by
  induction l with
  | nil => intro x hm _ _; cases hm
  | cons a t ih =>
    intro x hm hub hx
    simp only [List.foldl_cons]
    by_cases hmt : m ∈ t
    · exact ih (max x a) hmt (fun y hy => hub y (List.mem_cons_of_mem a hy))
        (max_le hx (hub a (List.mem_cons_self a t)))
    · have ham : a = m := by
        rcases List.mem_cons.mp hm with h1 | h1
        · exact h1.symm
        · exact absurd h1 hmt
      rw [ham, max_eq_right hx]
      exact foldl_max_of_le t m fun y hy => hub y (List.mem_cons_of_mem a hy)

/-- Helper: the id sequence grows by appending the next id. -/
theorem rangeIds_succ (n : ℕ) :
    rangeIds (n + 1) = rangeIds n ++ [(n : ℤ) + 1] := by
  simp [rangeIds, List.range_succ]

/-- Helper: over a collection whose ids are 1..n, the generated id is
n + 1. -/
theorem new_id_of_rangeIds (n : ℕ) (data : List DataManager.Rec)
    (h : data.map DataManager.Rec.id = rangeIds n) :
    DataManager.new_id_of data = (n : ℤ) + 1 := by
  unfold DataManager.new_id_of
  rw [h]
  cases n with
  | zero => rfl
  | succ m =>
    unfold rangeIds
    rw [List.range_succ_eq_map]
    simp only [List.map_cons, List.map_map, Nat.cast_zero, zero_add]
    congr 1
    cases m with
    | zero => rfl
    | succ k =>
      apply foldl_max_eq_of_mem
      · simp only [List.mem_map, List.mem_range, Function.comp]
        exact ⟨k, by omega, by push_cast; ring⟩
      · intro y hy
        simp only [List.mem_map, List.mem_range, Function.comp] at hy
        obtain ⟨i, hi, rfl⟩ := hy
        push_cast
        omega
      · push_cast
        omega

/-- Helper: N creates without caller-supplied ids extend the id sequence
1..n to 1..(n + N). -/
theorem createMany_ids (items : List DataManager.Fields) :
    ∀ (data : List DataManager.Rec) (n now : ℕ),
      (∀ it ∈ items, it.id = none) →
      data.map DataManager.Rec.id = rangeIds n →
      (DataManager.createMany data items now).map DataManager.Rec.id =
        rangeIds (n + items.length) := by
  induction items with
  | nil => intro data n now _ h; simpa using h
  | cons it rest ih =>
    intro data n now hids h
    unfold DataManager.createMany
    have hit : it.id = none := hids it (by simp)
    have hnew : DataManager.new_id_of data = (n : ℤ) + 1 :=
      new_id_of_rangeIds n data h
    have hcreated : ((DataManager.create data it now).2).map DataManager.Rec.id
        = rangeIds (n + 1) := by
      unfold DataManager.create
      dsimp only
      rw [List.map_append, h, rangeIds_succ]
      simp [hit, hnew]
    rw [ih (DataManager.create data it now).2 (n + 1) (now + 1)
      (fun x hx => hids x (by simp [hx])) hcreated]
    congr 1
    simp only [List.length_cons]
    omega

/-- C8: on a fresh (empty) collection, N sequential creates from a single
caller (whose field dicts carry no id key) assign the integer ids
1 through N in creation order, each id being max(existing ids) + 1, or 1
for the empty collection. -/
theorem c8_id_monotonicity (items : List DataManager.Fields) (now : ℕ)
    (h : ∀ it ∈ items, it.id = none) :
    (DataManager.createMany [] items now).map DataManager.Rec.id =
      (List.range items.length).map fun i : ℕ => (i : ℤ) + 1 := by
  have hres := createMany_ids items [] 0 now h (by rfl)
  simpa [rangeIds] using hres

/-- C8 witness: three creates on a fresh collection yield ids 1, 2, 3. -/
theorem c8_id_monotonicity_witness :
    (DataManager.createMany []
        [{ payload := 7 }, { payload := 8 }, { payload := 9 }] 0).map
      DataManager.Rec.id = [1, 2, 3] := by
  have h := c8_id_monotonicity
    [{ payload := 7 }, { payload := 8 }, { payload := 9 }] 0 (by decide)
  rw [h]
  decide
